import Mathlib

/-!
Shallow embedding of the case-management backend (src/model.rs, src/schema.rs,
src/handler.rs).  The SQL database is modelled as a `List CaseModel`
(respectively `List UserModel`); `fetch_one ... WHERE id = ?` is `List.find?`
on the id field, and an `UPDATE ... WHERE id = ?` maps over the list replacing
every row whose id matches.  The outbound HTTP transport of the dispatch
handler (`reqwest`) is a parameter `http : HttpRequest → HttpResult`; the
handler additionally returns the list of requests it actually issued, so that
"no request was sent" is expressible.  A Rust `panic!` (an `unwrap()` of a
`None` field) is modelled by the `HandlerOutcome.panicked` constructor.
Rust's `to_uppercase`/`to_ascii_lowercase` are modelled character-wise.
-/

/-- model.rs `CaseModel`: one database row of the `cases` table.
`used` is the raw `i8` column; `method`, `request_body`, `expected_result`,
`category`, `response_code`, `response_body` and both timestamps are nullable. -/
structure CaseModel where
  id : String
  user_id : String
  title : String
  host : String
  uri : String
  method : Option String
  request_body : Option String
  expected_result : Option String
  category : Option String
  response_code : Option String
  response_body : Option String
  used : Int
  created_at : Option Int
  updated_at : Option Int
  deriving DecidableEq

/-- model.rs `CaseModelResponse`: the JSON shape produced by
`filter_db_record`.  It has NO `response_code`/`response_body` fields
(they are commented out in the source). -/
structure CaseModelResponse where
  id : String
  user_id : String
  title : String
  host : String
  uri : String
  method : String
  request_body : String
  expected_result : String
  category : String
  used : Bool
  createdAt : Int
  updatedAt : Int
  deriving DecidableEq

/-- model.rs `CaseModelAllResponse`: the JSON shape produced by
`filter_db_all_record`, including the response fields. -/
structure CaseModelAllResponse where
  id : String
  user_id : String
  title : String
  host : String
  uri : String
  method : String
  request_body : String
  expected_result : String
  category : String
  response_code : String
  response_body : String
  used : Bool
  createdAt : Int
  updatedAt : Int
  deriving DecidableEq

/-- model.rs `User`: one row of the `users` table. -/
structure UserModel where
  id : String
  name : String
  email : String
  password : String
  role : String
  photo : String
  verified : Int
  created_at : Int
  updated_at : Int
  deriving DecidableEq

/-- schema.rs `CreateCaseSchema` (the create-case request payload). -/
structure CreateCaseSchema where
  user_id : Option String
  title : String
  host : String
  uri : String
  method : String
  request_body : String
  expected_result : String
  category : Option String
  used : Option Bool
  deriving DecidableEq

/-- schema.rs `UpdateCaseSchema` (the partial-update request payload). -/
structure UpdateCaseSchema where
  user_id : Option String
  title : Option String
  host : Option String
  uri : Option String
  method : Option String
  request_body : Option String
  expected_result : Option String
  category : Option String
  response_code : Option String
  response_body : Option String
  used : Option Bool
  deriving DecidableEq

/-- schema.rs `FilterOptions` (query parameters of the list endpoint).
Rust `usize` values are modelled as `Nat`. -/
structure FilterOptions where
  page : Option Nat
  limit : Option Nat
  deriving DecidableEq

/-- An error reply `(StatusCode, Json({"status": ..., "message": ...}))`. -/
structure ErrResponse where
  code : Nat
  status : String
  message : String
  deriving DecidableEq

/-- Result of a handler: a success value, an error reply, or a Rust panic
(an `unwrap()` on `None`). -/
inductive HandlerOutcome (α : Type) where
  | ok (a : α)
  | err (e : ErrResponse)
  | panicked
  deriving DecidableEq

/-- An outbound HTTP request as built by `test_case_handler`:
`client.get(&url).send()` carries no body (modelled as `""`),
`client.post(&url).body(body).send()` carries the stored body. -/
structure HttpRequest where
  method : String
  url : String
  body : String
  deriving DecidableEq

/-- Outcome of one outbound call: a transport-level error (the `Err` branch of
`send()`), or a received response with its status text and the result of
reading the body (`none` models a failed `res.text()`, which the code degrades
to the empty string). -/
inductive HttpResult where
  | transportError (e : String)
  | response (status : String) (text : Option String)
  deriving DecidableEq

/-- Character-wise model of Rust `str::to_uppercase`. -/
def strToUpper (s : String) : String := ⟨s.data.map Char.toUpper⟩

/-- Character-wise model of Rust `str::to_ascii_lowercase`. -/
def strToLower (s : String) : String := ⟨s.data.map Char.toLower⟩

/-- `fetch_one(SELECT * FROM cases WHERE id = ?)`: first row with this id,
`none` is sqlx `RowNotFound`. -/
def dbFind (db : List CaseModel) (id : String) : Option CaseModel :=
  db.find? (fun c => c.id == id)

/-- `UPDATE cases SET response_code = ?, response_body = ? WHERE id = ?`:
every row whose id matches gets exactly the two response columns replaced. -/
def dbUpdateResponse (db : List CaseModel) (id : String)
    (rc rb : Option String) : List CaseModel :=
  db.map (fun c =>
    if c.id == id then
      { c with response_code := rc, response_body := rb }
    else c)

/-- handler.rs `filter_db_record`: shapes a row into `CaseModelResponse`.
Each `.unwrap()` of the source is a `none` propagation here (a `none` result
models the Rust panic).  Note it reads neither `response_code` nor
`response_body`. -/
def filter_db_record (case : CaseModel) : Option CaseModelResponse :=
  match case.method, case.request_body, case.expected_result, case.category,
      case.created_at, case.updated_at with
  | some me, some rb, some er, some cat, some ca, some ua =>
      some { id := case.id, user_id := case.user_id, title := case.title,
             host := case.host, uri := case.uri, method := me,
             request_body := rb, expected_result := er, category := cat,
             used := case.used != 0, createdAt := ca, updatedAt := ua }
  | _, _, _, _, _, _ => none

/-- handler.rs `filter_db_all_record`: like `filter_db_record` but also
unwraps and includes `response_code` and `response_body`. -/
def filter_db_all_record (case : CaseModel) : Option CaseModelAllResponse :=
  match case.method, case.request_body, case.expected_result, case.category,
      case.response_code, case.response_body, case.created_at,
      case.updated_at with
  | some me, some rb, some er, some cat, some rc, some rbo, some ca, some ua =>
      some { id := case.id, user_id := case.user_id, title := case.title,
             host := case.host, uri := case.uri, method := me,
             request_body := rb, expected_result := er, category := cat,
             response_code := rc, response_body := rbo,
             used := case.used != 0, createdAt := ca, updatedAt := ua }
  | _, _, _, _, _, _, _, _ => none

/-- handler.rs `get_case_handler`: fetch by id, 404 on `RowNotFound`,
otherwise the `filter_db_record` shape. -/
def get_case_handler (db : List CaseModel) (id : String) :
    HandlerOutcome CaseModelResponse :=
  match dbFind db id with
  | none => .err ⟨404, "fail", "Case with ID: " ++ id ++ " not found"⟩
  | some case =>
      match filter_db_record case with
      | none => .panicked
      | some resp => .ok resp

/-- The tail of `test_case_handler` after `send()` returned: on transport
error reply 500 `Request failed: ...` with no write; on a response, persist
the status text and the (possibly defaulted) body text, re-read the row and
shape it with `filter_db_all_record`. -/
def dispatchOutcome (db : List CaseModel) (id : String) (r : HttpResult)
    (reqs : List HttpRequest) :
    HandlerOutcome CaseModelAllResponse × List CaseModel × List HttpRequest :=
  match r with
  | .transportError e =>
      (.err ⟨500, "error", "Request failed: " ++ e⟩, db, reqs)
  | .response status text =>
      let rc := some status
      let rb := some (text.getD "")
      let db1 := dbUpdateResponse db id rc rb
      match dbFind db1 id with
      | none => (.err ⟨500, "error", "RowNotFound"⟩, db1, reqs)
      | some updated =>
          match filter_db_all_record updated with
          | none => (.panicked, db1, reqs)
          | some resp => (.ok resp, db1, reqs)

/-- handler.rs `test_case_handler` (the dispatch endpoint): fetch the case,
build `url = host ++ uri`, normalize the method
(`unwrap_or("GET").to_uppercase()`), issue a GET (no body) or POST (stored
`request_body`, empty if absent), 405 for any other method with no request
issued, then `dispatchOutcome`.  Returns the outcome, the resulting database
and the requests actually issued. -/
def test_case_handler (db : List CaseModel)
    (http : HttpRequest → HttpResult) (id : String) :
    HandlerOutcome CaseModelAllResponse × List CaseModel × List HttpRequest :=
  match dbFind db id with
  | none =>
      (.err ⟨404, "fail", "Case with ID: " ++ id ++ " not found"⟩, db, [])
  | some case =>
      let url := case.host ++ case.uri
      let method := strToUpper (case.method.getD "GET")
      let body := case.request_body.getD ""
      if method == "GET" then
        dispatchOutcome db id (http ⟨"GET", url, ""⟩) [⟨"GET", url, ""⟩]
      else if method == "POST" then
        dispatchOutcome db id (http ⟨"POST", url, body⟩) [⟨"POST", url, body⟩]
      else
        (.err ⟨405, "error",
            "Method: " ++ method ++ " is not supported"⟩, db, [])

/-- The `unwrap_or_else` merge in `edit_case_handler` for a payload field that
is optional in the payload and nullable in storage: a supplied value wins,
otherwise the stored column is unwrapped — `none` here models the Rust panic
of `.unwrap()` on a NULL column. -/
def mergeOpt (bodyField stored : Option String) : Option String :=
  match bodyField with
  | some v => some v
  | none => stored

/-- The SET list of the UPDATE in handler.rs `edit_case_handler`, applied to
one matching row `x`: the eleven written columns get the merged values (the
six nullable merges already resolved to `me .. rbo`), while `id` and the
timestamps are not written. -/
def editUpdateFun (body : UpdateCaseSchema) (case : CaseModel)
    (me rb er cat rc rbo : String) (x : CaseModel) : CaseModel :=
  { x with user_id := body.user_id.getD case.user_id,
           title := body.title.getD case.title,
           host := body.host.getD case.host,
           uri := body.uri.getD case.uri,
           method := some me, request_body := some rb,
           expected_result := some er, category := some cat,
           response_code := some rc, response_body := some rbo,
           used := if body.used.getD (case.used != 0) then 1 else 0 }

/-- handler.rs `edit_case_handler`: fetch by id (404 on `RowNotFound`), merge
the payload over the stored row, run
`UPDATE cases SET user_id,title,host,uri,method,request_body,expected_result,
category,response_code,response_body,used WHERE id = ?`, 404 again if zero
rows were affected, re-read and shape with `filter_db_record`.  The bind
expressions are evaluated before the write, so a panic while merging leaves
the database untouched. -/
def edit_case_handler (db : List CaseModel) (id : String)
    (body : UpdateCaseSchema) :
    HandlerOutcome CaseModelResponse × List CaseModel :=
  match dbFind db id with
  | none =>
      (.err ⟨404, "fail", "Case with ID: " ++ id ++ " not found"⟩, db)
  | some case =>
      match mergeOpt body.method case.method,
          mergeOpt body.request_body case.request_body,
          mergeOpt body.expected_result case.expected_result,
          mergeOpt body.category case.category,
          mergeOpt body.response_code case.response_code,
          mergeOpt body.response_body case.response_body with
      | some me, some rb, some er, some cat, some rc, some rbo =>
          let db1 := db.map (fun c =>
            if c.id == id then
              editUpdateFun body case me rb er cat rc rbo c
            else c)
          if (db.filter (fun c => c.id == id)).length == 0 then
            (.err ⟨404, "fail", "Case with ID: " ++ id ++ " not found"⟩, db1)
          else
            match dbFind db1 id with
            | none => (.err ⟨500, "error", "RowNotFound"⟩, db1)
            | some updated =>
                match filter_db_record updated with
                | none => (.panicked, db1)
                | some resp => (.ok resp, db1)
      | _, _, _, _, _, _ => (.panicked, db)

/-- The row inserted by handler.rs `create_case_handler`:
`INSERT INTO cases (id,user_id,title,host,uri,method,request_body,
expected_result,category)`.  `user_id` is bound from the authenticated
user (`user.id`), never from the payload; the payload's `user_id` and `used`
fields are not bound at all.  `used` and the timestamps take the database
defaults (`0` and the insertion time); the response columns stay NULL. -/
def newCaseRecord (user : UserModel) (body : CreateCaseSchema)
    (case_id : String) (now : Int) : CaseModel :=
  { id := case_id, user_id := user.id, title := body.title, host := body.host,
    uri := body.uri, method := some body.method,
    request_body := some body.request_body,
    expected_result := some body.expected_result,
    category := some (body.category.getD ""),
    response_code := none, response_body := none, used := 0,
    created_at := some now, updated_at := some now }

/-- handler.rs `create_case_handler` success path: insert the new row, re-read
it by the freshly generated id and shape with `filter_db_record`.  (The 409
duplicate-entry branch is raised by a database uniqueness constraint that
lives outside src/, so it is not modelled; no claim depends on it.) -/
def create_case_handler (db : List CaseModel) (user : UserModel)
    (body : CreateCaseSchema) (case_id : String) (now : Int) :
    HandlerOutcome CaseModelResponse × List CaseModel :=
  let db1 := db ++ [newCaseRecord user body case_id now]
  match dbFind db1 case_id with
  | none => (.err ⟨500, "error", "RowNotFound"⟩, db1)
  | some case =>
      match filter_db_record case with
      | none => (.panicked, db1)
      | some resp => (.ok resp, db1)

/-- handler.rs `login_user_handler`.  The SQL lookup binds the
ascii-lowercased email; Argon2 hash parsing plus verification is the
parameter `verify` (stored password-hash string, supplied password); a hash
that fails to parse is `verify _ _ = false`, like the source's `Err(_) =>
false`.  On success the code issues a JWT cookie — token issuance is outside
the embedding, so success carries the authenticated user row. -/
def login_user_handler (db : List UserModel)
    (verify : String → String → Bool) (email password : String) :
    Except ErrResponse UserModel :=
  match db.find? (fun u => u.email == strToLower email) with
  | none => .error ⟨400, "fail", "Invalid email or password"⟩
  | some user =>
      if verify user.password password then .ok user
      else .error ⟨400, "fail", "Invalid email or password"⟩

/-- Rust `usize` evaluation of `(opts.page.unwrap_or(1) - 1) * limit` under
checked (overflow-is-a-bug) semantics: `none` is the panic, raised when the
unsigned subtraction underflows (`page = 0`) or when the multiplication
overflows past `2^64 - 1`. -/
def listOffset (page limit : Nat) : Option Nat :=
  if page = 0 then none
  else if (page - 1) * limit < 18446744073709551616 then
    some ((page - 1) * limit)
  else none

/-- Rust `as i32` applied to a usize value (the `limit as i32` /
`offset as i32` binds of the list query): keep the low 32 bits and
reinterpret them as two's-complement signed. -/
def usizeAsI32 (n : Nat) : Int :=
  let m := n % 4294967296
  if m < 2147483648 then (m : Int) else (m : Int) - 4294967296

/-- The 500 reply of the list handler's `map_err` branch when MySQL rejects
a negative i32 `LIMIT`/`OFFSET` bind; the handler formats
`Database error: {e}` with a driver-supplied error text that is external to
src/, abstracted here by a fixed suffix.  No theorem depends on this text. -/
def sqlNegativeBindError : ErrResponse :=
  ⟨500, "fail", "Database error: negative LIMIT or OFFSET bind"⟩

/-- Lexicographic (binary-collation) comparison of two character lists,
modelling the string ordering MySQL applies for `ORDER by id`. -/
def charListLe : List Char → List Char → Bool
  | [], _ => true
  | _ :: _, [] => false
  | a :: as, b :: bs =>
      if a < b then true else if b < a then false else charListLe as bs

/-- `ORDER by id`: comparison of rows by their id string. -/
def idLe (a b : CaseModel) : Bool := charListLe a.id.data b.id.data

/-- The `ORDER by id` sort of the SQL engine: any sorted permutation; the
model uses insertion sort over `idLe`. -/
def sortById (l : List CaseModel) : List CaseModel :=
  List.insertionSort (fun a b => idLe a b = true) l

/-- The row-selection part of handler.rs `case_list_handler`:
`SELECT * FROM cases WHERE user_id = ? ORDER by id LIMIT ? OFFSET ?` with
`limit` defaulting to 10, `page` to 1 and `offset = (page - 1) * limit`,
where both `limit` and `offset` are truncated through `as i32` before being
bound.  `.panicked` is the usize underflow/overflow panic (see `listOffset`);
a negative truncated bind is rejected by the database, surfaced as the 500
`Database error` reply. -/
def caseListSelected (db : List CaseModel) (user : UserModel)
    (page? limit? : Option Nat) : HandlerOutcome (List CaseModel) :=
  let limit := limit?.getD 10
  match listOffset (page?.getD 1) limit with
  | none => .panicked
  | some offset =>
      let limitI := usizeAsI32 limit
      let offsetI := usizeAsI32 offset
      if limitI < 0 ∨ offsetI < 0 then .err sqlNegativeBindError
      else
        .ok (((sortById (db.filter (fun c => c.user_id == user.id))).drop
          offsetI.toNat).take limitI.toNat)

/-- handler.rs `case_list_handler`: the selection above followed by
`filter_db_record` shaping of every selected row. -/
def case_list_handler (db : List CaseModel) (user : UserModel)
    (opts : Option FilterOptions) : HandlerOutcome (List CaseModelResponse) :=
  let o := opts.getD ⟨none, none⟩
  match caseListSelected db user o.page o.limit with
  | .panicked => .panicked
  | .err e => .err e
  | .ok sel =>
      match sel.mapM filter_db_record with
      | none => .panicked
      | some resps => .ok resps

/-- The request `test_case_handler` builds once the normalized method is
executable: GET carries no body, POST carries the stored `request_body`
(empty if absent). -/
def builtRequest (c : CaseModel) : HttpRequest :=
  let m := strToUpper (c.method.getD "GET")
  ⟨m, c.host ++ c.uri, if m = "POST" then c.request_body.getD "" else ""⟩

/-- A concrete case row used to instantiate the theorems on explicit inputs. -/
def sampleCase (id uid me : String) : CaseModel :=
  ⟨id, uid, "title", "http://h", "/p", some me, some "reqbody", some "exp",
   some "cat", none, none, 0, some 0, some 0⟩

/-- A concrete user row used to instantiate the theorems on explicit inputs. -/
def sampleUser (id email : String) : UserModel :=
  ⟨id, "name", email, "hash", "user", "photo", 0, 0, 0⟩

/-- A concrete case row with every nullable column populated. -/
def fullCase (id uid : String) : CaseModel :=
  ⟨id, uid, "title", "http://h", "/p", some "GET", some "rb", some "exp",
   some "cat", some "200 OK", some "body0", 0, some 0, some 0⟩

theorem find?_map_inv {α : Type} (g : α → α) (p : α → Bool) (l : List α)
    (hp : ∀ a, p (g a) = p a) :
    (l.map g).find? p = (l.find? p).map g := by
  induction l with
  | nil => rfl
  | cons a t ih =>
      by_cases h : p a = true
      · rw [List.map_cons, List.find?_cons_of_pos _ (by rw [hp a]; exact h),
          List.find?_cons_of_pos _ h]
        rfl
      · have h' : p a = false := by simpa using h
        rw [List.map_cons, List.find?_cons_of_neg _ (by rw [hp a]; simp [h']),
          List.find?_cons_of_neg _ (by simp [h']), ih]

theorem dbFind_update (db : List CaseModel) (id : String)
    (rc rb : Option String) :
    dbFind (dbUpdateResponse db id rc rb) id =
      (dbFind db id).map
        (fun c => { c with response_code := rc, response_body := rb }) := by
  unfold dbFind dbUpdateResponse
  rw [find?_map_inv _ _ _ (by intro a; by_cases h : a.id = id <;> simp [h])]
  cases h : List.find? (fun c => c.id == id) db with
  | none => rfl
  | some c =>
      have hc : (c.id == id) = true :=
        List.find?_some (p := fun x : CaseModel => x.id == id) h
      have hceq : c.id = id := by simpa using hc
      simp [hceq]

theorem dispatchOutcome_db (db : List CaseModel) (id : String)
    (st : String) (tx : Option String) (reqs : List HttpRequest) :
    (dispatchOutcome db id (.response st tx) reqs).2.1 =
      dbUpdateResponse db id (some st) (some (tx.getD "")) := by
  unfold dispatchOutcome
  cases h : dbFind (dbUpdateResponse db id (some st) (some (tx.getD ""))) id
  · simp [h]
  · rename_i u
    cases h2 : filter_db_all_record u <;> simp [h, h2]

theorem test_case_handler_executable (db : List CaseModel)
    (http : HttpRequest → HttpResult) (id : String) (c : CaseModel)
    (hfind : dbFind db id = some c)
    (hm : strToUpper (c.method.getD "GET") = "GET" ∨
      strToUpper (c.method.getD "GET") = "POST") :
    test_case_handler db http id =
      dispatchOutcome db id (http (builtRequest c)) [builtRequest c] := by
  unfold test_case_handler
  rw [hfind]
  rcases hm with h | h
  · simp [builtRequest, h]
  · simp [builtRequest, h]

theorem test_case_handler_unsupported (db : List CaseModel)
    (http : HttpRequest → HttpResult) (id : String) (c : CaseModel)
    (hfind : dbFind db id = some c)
    (hget : strToUpper (c.method.getD "GET") ≠ "GET")
    (hpost : strToUpper (c.method.getD "GET") ≠ "POST") :
    test_case_handler db http id =
      (.err ⟨405, "error",
          "Method: " ++ strToUpper (c.method.getD "GET") ++
            " is not supported"⟩,
        db, []) := by
  unfold test_case_handler
  rw [hfind]
  simp [hget, hpost]

/-- C2: for every stored case whose normalized method is neither `GET` nor
`POST`, dispatch fails with the 405 MethodNotSupported reply whose message
names the offending (normalized) method, no outbound request is issued (the
issued-request list is empty) and the database is returned unchanged. -/
theorem C2_method_not_supported (db : List CaseModel)
    (http : HttpRequest → HttpResult) (id : String) (c : CaseModel)
    (hfind : dbFind db id = some c)
    (hget : strToUpper (c.method.getD "GET") ≠ "GET")
    (hpost : strToUpper (c.method.getD "GET") ≠ "POST") :
    test_case_handler db http id =
      (.err ⟨405, "error",
          "Method: " ++ strToUpper (c.method.getD "GET") ++
            " is not supported"⟩,
        db, []) :=
  test_case_handler_unsupported db http id c hfind hget hpost

/-- C2 witness: a stored method `PUT` is rejected with 405 naming `PUT`,
no request issued, database unchanged. -/
theorem C2_witness :
    test_case_handler [sampleCase "c1" "u1" "PUT"]
        (fun _ => .response "200 OK" (some "ok")) "c1" =
      (.err ⟨405, "error", "Method: PUT is not supported"⟩,
        [sampleCase "c1" "u1" "PUT"], []) :=
  (C2_method_not_supported _ _ _ (sampleCase "c1" "u1" "PUT") (by decide)
    (by decide) (by decide)).trans (by decide)

/-- C6: for every dispatch whose outbound call fails at the transport level,
the handler replies 500 `Request failed: ...` carrying the underlying cause,
and the database is returned unchanged in every field (exactly one request
was attempted). -/
theorem C6_transport_failure (db : List CaseModel)
    (http : HttpRequest → HttpResult) (id : String) (c : CaseModel)
    (e : String)
    (hfind : dbFind db id = some c)
    (hm : strToUpper (c.method.getD "GET") = "GET" ∨
      strToUpper (c.method.getD "GET") = "POST")
    (hhttp : http (builtRequest c) = .transportError e) :
    test_case_handler db http id =
      (.err ⟨500, "error", "Request failed: " ++ e⟩, db,
        [builtRequest c]) := by
  rw [test_case_handler_executable db http id c hfind hm, hhttp]
  rfl

/-- C6 witness: a refused connection on a GET case yields the 500
`Request failed` reply and leaves the stored row untouched. -/
theorem C6_witness :
    test_case_handler [sampleCase "c1" "u1" "GET"]
        (fun _ => .transportError "connection refused") "c1" =
      (.err ⟨500, "error", "Request failed: connection refused"⟩,
        [sampleCase "c1" "u1" "GET"],
        [⟨"GET", "http://h/p", ""⟩]) :=
  (C6_transport_failure _ _ _ (sampleCase "c1" "u1" "GET") _ (by decide)
    (Or.inl (by decide)) rfl).trans (by decide)

/-- C7: a login with an email unknown to the store and a login with a known
email whose password fails hash verification produce the identical observable
error — the same 400 status code and the same status/message body — so the
two failure causes are indistinguishable to the caller. -/
theorem C7_login_indistinguishable (db : List UserModel)
    (verify : String → String → Bool) (e1 p1 e2 p2 : String) (u : UserModel)
    (h1 : db.find? (fun v => v.email == strToLower e1) = none)
    (h2 : db.find? (fun v => v.email == strToLower e2) = some u)
    (h3 : verify u.password p2 = false) :
    login_user_handler db verify e1 p1 =
      Except.error ⟨400, "fail", "Invalid email or password"⟩ ∧
    login_user_handler db verify e2 p2 =
      Except.error ⟨400, "fail", "Invalid email or password"⟩ ∧
    login_user_handler db verify e1 p1 =
      login_user_handler db verify e2 p2 := by
  unfold login_user_handler
  rw [h1, h2]
  simp [h3]

/-- C7 witness: with one stored user `a@b.c`, the unknown email `x@y.z` and a
wrong password for `a@b.c` yield the same 400 reply. -/
theorem C7_witness :
    login_user_handler [sampleUser "u1" "a@b.c"] (fun _ _ => false)
        "x@y.z" "pw1" =
      Except.error ⟨400, "fail", "Invalid email or password"⟩ ∧
    login_user_handler [sampleUser "u1" "a@b.c"] (fun _ _ => false)
        "a@b.c" "pw2" =
      Except.error ⟨400, "fail", "Invalid email or password"⟩ ∧
    login_user_handler [sampleUser "u1" "a@b.c"] (fun _ _ => false)
        "x@y.z" "pw1" =
      login_user_handler [sampleUser "u1" "a@b.c"] (fun _ _ => false)
        "a@b.c" "pw2" :=
  C7_login_indistinguishable _ _ _ "pw1" _ "pw2" (sampleUser "u1" "a@b.c")
    (by decide) (by decide) rfl

/-- C9: the owner stored on a created case is the authenticated caller's id,
and the creation payload's `user_id` and `used` fields are never bound into
the insert: two payloads agreeing on every other field produce the same
inserted row and the same handler result. -/
theorem C9_create_owner_from_caller (db : List CaseModel) (user : UserModel)
    (b1 b2 : CreateCaseSchema) (cid : String) (now : Int)
    (ht : b1.title = b2.title) (hh : b1.host = b2.host)
    (hu : b1.uri = b2.uri) (hm : b1.method = b2.method)
    (hrb : b1.request_body = b2.request_body)
    (he : b1.expected_result = b2.expected_result)
    (hc : b1.category = b2.category) :
    (newCaseRecord user b1 cid now).user_id = user.id ∧
    newCaseRecord user b1 cid now = newCaseRecord user b2 cid now ∧
    create_case_handler db user b1 cid now =
      create_case_handler db user b2 cid now := by
  have hrec : newCaseRecord user b1 cid now = newCaseRecord user b2 cid now := by
    unfold newCaseRecord
    rw [ht, hh, hu, hm, hrb, he, hc]
  exact ⟨rfl, hrec, by unfold create_case_handler; rw [hrec]⟩

/-- C9 witness: a payload carrying `user_id = "attacker"` and `used = true`
inserts a row owned by the caller `u1`, identically to the payload omitting
both fields. -/
theorem C9_witness :
    (newCaseRecord (sampleUser "u1" "a@b.c")
        ⟨some "attacker", "t", "h", "/u", "GET", "b", "e", none, some true⟩
        "cid" 0).user_id = "u1" ∧
    newCaseRecord (sampleUser "u1" "a@b.c")
        ⟨some "attacker", "t", "h", "/u", "GET", "b", "e", none, some true⟩
        "cid" 0 =
      newCaseRecord (sampleUser "u1" "a@b.c")
        ⟨none, "t", "h", "/u", "GET", "b", "e", none, none⟩ "cid" 0 ∧
    create_case_handler [] (sampleUser "u1" "a@b.c")
        ⟨some "attacker", "t", "h", "/u", "GET", "b", "e", none, some true⟩
        "cid" 0 =
      create_case_handler [] (sampleUser "u1" "a@b.c")
        ⟨none, "t", "h", "/u", "GET", "b", "e", none, none⟩ "cid" 0 :=
  C9_create_owner_from_caller [] (sampleUser "u1" "a@b.c") _ _ "cid" 0
    rfl rfl rfl rfl rfl rfl rfl

/-- C10: an explicit `page = 0` makes the usize offset computation
`(page - 1) * limit` underflow: the list handler panics instead of producing
any reply — neither the page = 1 behavior (which always yields a selection)
nor an error response. -/
theorem C10_page_zero_underflow (db : List CaseModel) (user : UserModel)
    (lim : Option Nat) :
    case_list_handler db user (some ⟨some 0, lim⟩) = .panicked ∧
    (∀ e, case_list_handler db user (some ⟨some 0, lim⟩) ≠ .err e) ∧
    caseListSelected db user (some 0) lim = .panicked ∧
    caseListSelected db user (some 0) lim ≠
      caseListSelected db user (some 1) lim := by
  refine ⟨?_, ?_, ?_, ?_⟩
  · simp [case_list_handler, caseListSelected, listOffset]
  · intro e
    simp [case_list_handler, caseListSelected, listOffset]
  · simp [caseListSelected, listOffset]
  · simp only [caseListSelected, listOffset]
    by_cases h : usizeAsI32 (lim.getD 10) < 0 ∨ usizeAsI32 0 < 0 <;>
      simp [h]

/-- C3 counterexample: a stored method that IS the empty string does not
dispatch as a GET request — the handler replies 405
`Method:  is not supported` and issues no outbound request at all, although
the transport stood ready to answer. -/
theorem C3_counterexample_empty_method :
    test_case_handler [sampleCase "c1" "u1" ""]
        (fun _ => .response "200 OK" (some "ok")) "c1" =
      (.err ⟨405, "error", "Method:  is not supported"⟩,
        [sampleCase "c1" "u1" ""], []) := by
  decide

/-- C3 (amended): during dispatch the stored method is normalized to
uppercase before the request kind is selected, and an ABSENT stored method
defaults to GET; an empty-string stored method, however, does not default to
GET — normalization leaves it empty and dispatch fails with the 405
MethodNotSupported reply, issuing no request. -/
theorem C3_method_normalization (db : List CaseModel)
    (http : HttpRequest → HttpResult) (id : String) (c : CaseModel)
    (hfind : dbFind db id = some c) :
    (c.method = none → strToUpper (c.method.getD "GET") = "GET") ∧
    (strToUpper (c.method.getD "GET") = "GET" →
      test_case_handler db http id =
        dispatchOutcome db id (http ⟨"GET", c.host ++ c.uri, ""⟩)
          [⟨"GET", c.host ++ c.uri, ""⟩]) ∧
    (strToUpper (c.method.getD "GET") = "POST" →
      test_case_handler db http id =
        dispatchOutcome db id
          (http ⟨"POST", c.host ++ c.uri, c.request_body.getD ""⟩)
          [⟨"POST", c.host ++ c.uri, c.request_body.getD ""⟩]) ∧
    (c.method = some "" →
      test_case_handler db http id =
        (.err ⟨405, "error", "Method:  is not supported"⟩, db, [])) := by
  refine ⟨?_, ?_, ?_, ?_⟩
  · intro h
    rw [h]
    decide
  · intro h
    rw [test_case_handler_executable db http id c hfind (Or.inl h)]
    simp [builtRequest, h]
  · intro h
    rw [test_case_handler_executable db http id c hfind (Or.inr h)]
    simp [builtRequest, h]
  · intro h
    have hs : strToUpper (c.method.getD "GET") = "" := by rw [h]; rfl
    rw [test_case_handler_unsupported db http id c hfind
      (by rw [hs]; decide) (by rw [hs]; decide), hs]
    rfl

/-- C3 witness: a stored lowercase method `get` is normalized to `GET` and
dispatched as a GET request with no body. -/
theorem C3_witness :
    test_case_handler [sampleCase "c1" "u1" "get"]
        (fun _ => .response "200 OK" (some "ok")) "c1" =
      dispatchOutcome [sampleCase "c1" "u1" "get"] "c1"
        (.response "200 OK" (some "ok")) [⟨"GET", "http://h/p", ""⟩] :=
  ((C3_method_normalization _ _ _ (sampleCase "c1" "u1" "get")
      (by decide)).2.1 (by decide)).trans (by decide)

/-- C4: when dispatch receives a response, the persistence step writes
exactly `response_code` (the captured status text) and `response_body` (the
read body, empty on read failure) of every row with the dispatched id,
discarding the prior response values, while every other stored field — id,
owner, title, host, uri, method, request_body, expected_result, category,
the `used` flag and both timestamps — keeps its prior value, and rows with a
different id are completely untouched. -/
theorem C4_persist_frame (db : List CaseModel)
    (http : HttpRequest → HttpResult) (id : String) (c : CaseModel)
    (st : String) (tx : Option String)
    (hfind : dbFind db id = some c)
    (hm : strToUpper (c.method.getD "GET") = "GET" ∨
      strToUpper (c.method.getD "GET") = "POST")
    (hhttp : http (builtRequest c) = .response st tx) :
    (test_case_handler db http id).2.1 =
      dbUpdateResponse db id (some st) (some (tx.getD "")) ∧
    List.Forall₂ (fun old new =>
      new.id = old.id ∧ new.user_id = old.user_id ∧ new.title = old.title ∧
      new.host = old.host ∧ new.uri = old.uri ∧ new.method = old.method ∧
      new.request_body = old.request_body ∧
      new.expected_result = old.expected_result ∧
      new.category = old.category ∧ new.used = old.used ∧
      new.created_at = old.created_at ∧ new.updated_at = old.updated_at ∧
      (old.id = id → new.response_code = some st ∧
        new.response_body = some (tx.getD "")) ∧
      (old.id ≠ id → new = old))
      db (test_case_handler db http id).2.1 := by
  have h1 : (test_case_handler db http id).2.1 =
      dbUpdateResponse db id (some st) (some (tx.getD "")) := by
    rw [test_case_handler_executable db http id c hfind hm, hhttp,
      dispatchOutcome_db]
  refine ⟨h1, ?_⟩
  rw [h1]
  unfold dbUpdateResponse
  rw [List.forall₂_map_right_iff, List.forall₂_same]
  intro x _
  by_cases hxid : x.id = id <;> simp [hxid]

/-- C4 witness: dispatching the first of two stored rows persists only its
response columns; the second row is untouched. -/
theorem C4_witness :
    (test_case_handler
        [sampleCase "c1" "u1" "GET", sampleCase "c2" "u1" "GET"]
        (fun _ => .response "201 Created" (some "resp")) "c1").2.1 =
      [{ sampleCase "c1" "u1" "GET" with
          response_code := some "201 Created",
          response_body := some "resp" },
        sampleCase "c2" "u1" "GET"] :=
  ((C4_persist_frame _ _ _ (sampleCase "c1" "u1" "GET") _ _ (by decide)
    (Or.inl (by decide)) rfl).1).trans (by decide)

/-- C1 counterexample: two stored rows identical except for their persisted
`response_code`/`response_body` produce the very same `get_case_handler`
reply, because `filter_db_record` omits both fields — so a fetch by id does
not return the values captured at dispatch time. -/
theorem C1_counterexample_fetch_omits_response :
    (⟨"c1", "u1", "title", "http://h", "/p", some "GET", some "rb", some "e",
        some "cat", some "200 OK", some "AAA", 0, some 0, some 0⟩ :
      CaseModel).response_code ≠
      (⟨"c1", "u1", "title", "http://h", "/p", some "GET", some "rb",
          some "e", some "cat", some "404 Not Found", some "BBB", 0, some 0,
          some 0⟩ : CaseModel).response_code ∧
    get_case_handler
        [⟨"c1", "u1", "title", "http://h", "/p", some "GET", some "rb",
          some "e", some "cat", some "200 OK", some "AAA", 0, some 0,
          some 0⟩] "c1" =
      get_case_handler
        [⟨"c1", "u1", "title", "http://h", "/p", some "GET", some "rb",
          some "e", some "cat", some "404 Not Found", some "BBB", 0, some 0,
          some 0⟩] "c1" := by
  decide

/-- C1 (amended): after a successful dispatch the STORED record fetched by id
carries exactly the `response_code`/`response_body` captured at dispatch
time, and a second successful dispatch replaces both fields with the new
outcome rather than appending; the fetch endpoint's JSON shape
(`filter_db_record`), however, omits the two fields, so they are not part of
the `get` reply itself. -/
theorem C1_dispatch_persists_second_overwrites (db : List CaseModel)
    (http1 http2 : HttpRequest → HttpResult) (id : String) (c : CaseModel)
    (st1 st2 : String) (tx1 tx2 : Option String)
    (hfind : dbFind db id = some c)
    (hm : strToUpper (c.method.getD "GET") = "GET" ∨
      strToUpper (c.method.getD "GET") = "POST")
    (h1 : http1 (builtRequest c) = .response st1 tx1)
    (h2 : http2 (builtRequest c) = .response st2 tx2) :
    ∃ c1 c2,
      dbFind (test_case_handler db http1 id).2.1 id = some c1 ∧
      c1.response_code = some st1 ∧ c1.response_body = some (tx1.getD "") ∧
      dbFind (test_case_handler
          (test_case_handler db http1 id).2.1 http2 id).2.1 id = some c2 ∧
      c2.response_code = some st2 ∧ c2.response_body = some (tx2.getD "") := by
  have e1 : (test_case_handler db http1 id).2.1 =
      dbUpdateResponse db id (some st1) (some (tx1.getD "")) := by
    rw [test_case_handler_executable db http1 id c hfind hm, h1,
      dispatchOutcome_db]
  have f1 : dbFind (test_case_handler db http1 id).2.1 id =
      some { c with response_code := some st1,
                    response_body := some (tx1.getD "") } := by
    rw [e1, dbFind_update, hfind]
    rfl
  have e2 : (test_case_handler
        (test_case_handler db http1 id).2.1 http2 id).2.1 =
      dbUpdateResponse (test_case_handler db http1 id).2.1 id (some st2)
        (some (tx2.getD "")) := by
    have hb : builtRequest
        { c with response_code := some st1,
                 response_body := some (tx1.getD "") } = builtRequest c := rfl
    rw [test_case_handler_executable _ http2 id
      { c with response_code := some st1,
               response_body := some (tx1.getD "") } f1 hm, hb, h2,
      dispatchOutcome_db]
  have f2 : dbFind (test_case_handler
        (test_case_handler db http1 id).2.1 http2 id).2.1 id =
      some { c with response_code := some st2,
                    response_body := some (tx2.getD "") } := by
    rw [e2, dbFind_update, f1]
    rfl
  exact ⟨_, _, f1, rfl, rfl, f2, rfl, rfl⟩

/-- C1 witness: dispatching a stored GET case persists `200 OK` / `A`; a
second dispatch against a changed target outcome replaces both fields with
`500 Internal Server Error` / `B`. -/
theorem C1_witness :
    ∃ c1 c2,
      dbFind (test_case_handler [sampleCase "c1" "u1" "GET"]
          (fun _ => .response "200 OK" (some "A")) "c1").2.1 "c1" = some c1 ∧
      c1.response_code = some "200 OK" ∧ c1.response_body = some "A" ∧
      dbFind (test_case_handler
          (test_case_handler [sampleCase "c1" "u1" "GET"]
            (fun _ => .response "200 OK" (some "A")) "c1").2.1
          (fun _ => .response "500 Internal Server Error" (some "B"))
          "c1").2.1 "c1" = some c2 ∧
      c2.response_code = some "500 Internal Server Error" ∧
      c2.response_body = some "B" :=
  C1_dispatch_persists_second_overwrites [sampleCase "c1" "u1" "GET"]
    (fun _ => .response "200 OK" (some "A"))
    (fun _ => .response "500 Internal Server Error" (some "B")) "c1"
    (sampleCase "c1" "u1" "GET") "200 OK" "500 Internal Server Error"
    (some "A") (some "B") (by decide) (Or.inl (by decide)) rfl rfl

theorem filter_length_ne_zero (db : List CaseModel) (id : String)
    (c : CaseModel) (h : dbFind db id = some c) :
    ((db.filter (fun x => x.id == id)).length == 0) = false := by
  have hmem : c ∈ db := List.mem_of_find?_eq_some h
  have hp : (c.id == id) = true :=
    List.find?_some (p := fun x : CaseModel => x.id == id) h
  have hin : c ∈ db.filter (fun x => x.id == id) :=
    List.mem_filter.mpr ⟨hmem, hp⟩
  cases hfil : db.filter (fun x => x.id == id) with
  | nil => rw [hfil] at hin; cases hin
  | cons a t => rfl

/-- C5 counterexample: a stored case that has never been dispatched has NULL
response columns; a partial update that supplies a new title but omits
`response_code` unwraps that NULL and panics — the operation does not
complete with a merged record, and the database is left as it was. -/
theorem C5_counterexample_null_column_panics :
    edit_case_handler [sampleCase "c1" "u1" "GET"] "c1"
        ⟨none, some "newTitle", none, none, none, none, none, none, none,
          none, none⟩ =
      (.panicked, [sampleCase "c1" "u1" "GET"]) := by
  decide

/-- C5 (amended): for an update of an existing case in which every nullable
stored column that the payload omits is actually populated, the operation
completes returning the merged record: each supplied field takes the supplied
value, each omitted field keeps the previously stored value (never a
default).  (Without that proviso the claim fails: the merge unwraps a NULL
stored column and panics, see the counterexample.) -/
theorem C5_update_merges (db : List CaseModel) (id : String)
    (body : UpdateCaseSchema) (c : CaseModel)
    (m rb er cat rc rbo : String) (ca ua : Int)
    (hfind : dbFind db id = some c)
    (hm : mergeOpt body.method c.method = some m)
    (hrb : mergeOpt body.request_body c.request_body = some rb)
    (her : mergeOpt body.expected_result c.expected_result = some er)
    (hcat : mergeOpt body.category c.category = some cat)
    (hrc : mergeOpt body.response_code c.response_code = some rc)
    (hrbo : mergeOpt body.response_body c.response_body = some rbo)
    (hca : c.created_at = some ca) (hua : c.updated_at = some ua)
    (hused : c.used = 0 ∨ c.used = 1) :
    ∃ resp db1 c',
      edit_case_handler db id body = (.ok resp, db1) ∧
      dbFind db1 id = some c' ∧
      filter_db_record c' = some resp ∧
      c'.id = c.id ∧
      c'.user_id = body.user_id.getD c.user_id ∧
      c'.title = body.title.getD c.title ∧
      c'.host = body.host.getD c.host ∧
      c'.uri = body.uri.getD c.uri ∧
      c'.method = some m ∧ c'.request_body = some rb ∧
      c'.expected_result = some er ∧ c'.category = some cat ∧
      c'.response_code = some rc ∧ c'.response_body = some rbo ∧
      c'.created_at = c.created_at ∧ c'.updated_at = c.updated_at ∧
      (body.method = none → c'.method = c.method) ∧
      (body.request_body = none → c'.request_body = c.request_body) ∧
      (body.expected_result = none → c'.expected_result = c.expected_result) ∧
      (body.category = none → c'.category = c.category) ∧
      (body.response_code = none → c'.response_code = c.response_code) ∧
      (body.response_body = none → c'.response_body = c.response_body) ∧
      (body.used = none → c'.used = c.used) ∧
      (∀ b, body.used = some b → c'.used = if b then 1 else 0) := by
  have hc : (c.id == id) = true :=
    List.find?_some (p := fun x : CaseModel => x.id == id) hfind
  have hmap : dbFind (db.map (fun x =>
      if x.id == id then editUpdateFun body c m rb er cat rc rbo x
      else x)) id = some (editUpdateFun body c m rb er cat rc rbo c) := by
    unfold dbFind
    rw [find?_map_inv _ _ _
      (fun a => by by_cases h : a.id = id <;> simp [h, editUpdateFun])]
    have heq : List.find? (fun x : CaseModel => x.id == id) db = some c :=
      hfind
    have hcid : c.id = id := by simpa using hc
    rw [heq]
    simp [hcid]
  have hfilter : filter_db_record (editUpdateFun body c m rb er cat rc rbo c) =
      some { id := c.id, user_id := body.user_id.getD c.user_id,
             title := body.title.getD c.title, host := body.host.getD c.host,
             uri := body.uri.getD c.uri, method := m, request_body := rb,
             expected_result := er, category := cat,
             used := ((if body.used.getD (c.used != 0) then 1 else 0 : Int)
               != 0),
             createdAt := ca, updatedAt := ua } := by
    unfold filter_db_record editUpdateFun
    rw [hca, hua]
  have main : edit_case_handler db id body =
      (.ok { id := c.id, user_id := body.user_id.getD c.user_id,
             title := body.title.getD c.title, host := body.host.getD c.host,
             uri := body.uri.getD c.uri, method := m, request_body := rb,
             expected_result := er, category := cat,
             used := ((if body.used.getD (c.used != 0) then 1 else 0 : Int)
               != 0),
             createdAt := ca, updatedAt := ua },
        db.map (fun x =>
          if x.id == id then editUpdateFun body c m rb er cat rc rbo x
          else x)) := by
    unfold edit_case_handler
    rw [hfind]
    simp only [hm, hrb, her, hcat, hrc, hrbo,
      filter_length_ne_zero db id c hfind, hmap, hfilter]
    rfl
  refine ⟨_, _, _, main, hmap, hfilter, rfl, rfl, rfl, rfl, rfl, rfl, rfl,
    rfl, rfl, rfl, rfl, rfl, rfl, ?_, ?_, ?_, ?_, ?_, ?_, ?_, ?_⟩
  · intro h
    rw [h] at hm
    simp only [mergeOpt] at hm
    exact hm.symm
  · intro h
    rw [h] at hrb
    simp only [mergeOpt] at hrb
    exact hrb.symm
  · intro h
    rw [h] at her
    simp only [mergeOpt] at her
    exact her.symm
  · intro h
    rw [h] at hcat
    simp only [mergeOpt] at hcat
    exact hcat.symm
  · intro h
    rw [h] at hrc
    simp only [mergeOpt] at hrc
    exact hrc.symm
  · intro h
    rw [h] at hrbo
    simp only [mergeOpt] at hrbo
    exact hrbo.symm
  · intro h
    rcases hused with h0 | h1
    · simp [editUpdateFun, h, h0]
    · simp [editUpdateFun, h, h1]
  · intro b hb
    simp [editUpdateFun, hb]

/-- C5 witness: updating a fully-populated stored case with a payload that
supplies only a new title completes, keeps every omitted field's stored
value, and returns the merged record. -/
theorem C5_witness :
    ∃ resp db1 c',
      edit_case_handler [fullCase "c1" "u1"] "c1"
          ⟨none, some "newTitle", none, none, none, none, none, none, none,
            none, none⟩ = (.ok resp, db1) ∧
      dbFind db1 "c1" = some c' ∧
      filter_db_record c' = some resp ∧
      c'.id = "c1" ∧
      c'.user_id = "u1" ∧
      c'.title = "newTitle" ∧
      c'.host = "http://h" ∧
      c'.uri = "/p" ∧
      c'.method = some "GET" ∧ c'.request_body = some "rb" ∧
      c'.expected_result = some "exp" ∧ c'.category = some "cat" ∧
      c'.response_code = some "200 OK" ∧ c'.response_body = some "body0" ∧
      c'.created_at = some 0 ∧ c'.updated_at = some 0 ∧
      ((none : Option String) = none → c'.method = some "GET") ∧
      ((none : Option String) = none → c'.request_body = some "rb") ∧
      ((none : Option String) = none → c'.expected_result = some "exp") ∧
      ((none : Option String) = none → c'.category = some "cat") ∧
      ((none : Option String) = none → c'.response_code = some "200 OK") ∧
      ((none : Option String) = none → c'.response_body = some "body0") ∧
      ((none : Option Bool) = none → c'.used = 0) ∧
      (∀ b, (none : Option Bool) = some b →
        c'.used = if b then 1 else 0) :=
  C5_update_merges [fullCase "c1" "u1"] "c1"
    ⟨none, some "newTitle", none, none, none, none, none, none, none, none,
      none⟩ (fullCase "c1" "u1") "GET" "rb" "exp" "cat" "200 OK" "body0" 0 0
    (by decide) rfl rfl rfl rfl rfl rfl rfl rfl (Or.inl rfl)

theorem charListLe_trans : ∀ as bs cs, charListLe as bs = true →
    charListLe bs cs = true → charListLe as cs = true := by
  intro as
  induction as with
  | nil => intro bs cs _ _; rfl
  | cons a as ih =>
      intro bs cs h1 h2
      cases bs with
      | nil => simp [charListLe] at h1
      | cons b bs =>
          cases cs with
          | nil => simp [charListLe] at h2
          | cons c cs =>
              have k1 : a < b ∨ (a = b ∧ charListLe as bs = true) := by
                by_cases hab : a < b
                · exact Or.inl hab
                · by_cases hba : b < a
                  · rw [charListLe, if_neg hab, if_pos hba] at h1
                    exact absurd h1 (by simp)
                  · exact Or.inr ⟨le_antisymm (le_of_not_lt hba)
                      (le_of_not_lt hab),
                      by rwa [charListLe, if_neg hab, if_neg hba] at h1⟩
              have k2 : b < c ∨ (b = c ∧ charListLe bs cs = true) := by
                by_cases hbc : b < c
                · exact Or.inl hbc
                · by_cases hcb : c < b
                  · rw [charListLe, if_neg hbc, if_pos hcb] at h2
                    exact absurd h2 (by simp)
                  · exact Or.inr ⟨le_antisymm (le_of_not_lt hcb)
                      (le_of_not_lt hbc),
                      by rwa [charListLe, if_neg hbc, if_neg hcb] at h2⟩
              rcases k1 with hab | ⟨hab, t1⟩
              · rcases k2 with hbc | ⟨hbc, t2⟩
                · have hac : a < c := lt_trans hab hbc
                  simp [charListLe, hac]
                · subst hbc
                  simp [charListLe, hab]
              · subst hab
                rcases k2 with hbc | ⟨hbc, t2⟩
                · simp [charListLe, hbc]
                · subst hbc
                  simp [charListLe, lt_irrefl, ih bs cs t1 t2]

theorem charListLe_total : ∀ as bs,
    (charListLe as bs || charListLe bs as) = true := by
  intro as
  induction as with
  | nil => intro bs; simp [charListLe]
  | cons a as ih =>
      intro bs
      cases bs with
      | nil => simp [charListLe]
      | cons b bs =>
          simp only [charListLe]
          by_cases hab : a < b
          · simp [hab, lt_asymm hab]
          · by_cases hba : b < a
            · simp [hba, hab]
            · simp [hab, hba, ih bs]


theorem usizeAsI32_of_lt (n : Nat) (h : n < 2147483648) :
    usizeAsI32 n = (n : Int) := by
  unfold usizeAsI32
  have h1 : n % 4294967296 = n := Nat.mod_eq_of_lt (by omega)
  rw [h1, if_pos h]

/-- C8 counterexample: at `page = 429496731, limit = 10` the usize offset is
`4294967300 = 2^32 + 4`, which the `as i32` bind truncates to `4`: the
program returns the rows starting at the 5th record, while the claimed
offset `(page - 1) * limit` would select the empty page — so the list is
not always the drop/take at offset `(page - 1) * limit`. -/
theorem C8_counterexample_offset_truncation :
    caseListSelected
        [sampleCase "c3" "u1" "GET", sampleCase "c1" "u1" "GET",
          sampleCase "c7" "u1" "GET", sampleCase "c2" "u1" "GET",
          sampleCase "c6" "u1" "GET", sampleCase "d1" "u2" "GET",
          sampleCase "c4" "u1" "GET", sampleCase "c5" "u1" "GET"]
        (sampleUser "u1" "e") (some 429496731) (some 10) =
      .ok [sampleCase "c5" "u1" "GET", sampleCase "c6" "u1" "GET",
        sampleCase "c7" "u1" "GET"] ∧
    (429496731 - 1) * 10 = 4294967300 ∧
    usizeAsI32 4294967300 = 4 ∧
    ((sortById (List.filter (fun c => c.user_id == "u1")
        [sampleCase "c3" "u1" "GET", sampleCase "c1" "u1" "GET",
          sampleCase "c7" "u1" "GET", sampleCase "c2" "u1" "GET",
          sampleCase "c6" "u1" "GET", sampleCase "d1" "u2" "GET",
          sampleCase "c4" "u1" "GET", sampleCase "c5" "u1" "GET"])).drop
        ((429496731 - 1) * 10)).take 10 = ([] : List CaseModel) ∧
    [sampleCase "c5" "u1" "GET", sampleCase "c6" "u1" "GET",
      sampleCase "c7" "u1" "GET"] ≠ ([] : List CaseModel) := by
  refine ⟨by decide, by decide, by decide, by decide, by decide⟩

/-- C8 (amended): for every authenticated caller whose supplied page is ≥ 1
and for which both `limit` and the offset `(page - 1) * limit` fit below
`2^31` (so the `as i32` binds are the identity), the list selection returns
only rows owned by that caller, in ascending id order, starting at offset
`(page - 1) * limit` with at most `limit` rows, where `page` defaults to 1
and `limit` to 10; a caller with no matching rows gets the empty sequence.
Outside that range the i32 casts wrap (see the counterexample), so the
original unconditional claim fails. -/
theorem C8_list_pagination_in_range (db : List CaseModel) (user : UserModel)
    (page? limit? : Option Nat)
    (hpage : ∀ p, page? = some p → 1 ≤ p)
    (hlim : limit?.getD 10 < 2147483648)
    (hoff : (page?.getD 1 - 1) * limit?.getD 10 < 2147483648) :
    caseListSelected db user page? limit? =
      .ok (((sortById (db.filter (fun c => c.user_id == user.id))).drop
        ((page?.getD 1 - 1) * limit?.getD 10)).take (limit?.getD 10)) ∧
    ∀ sel, caseListSelected db user page? limit? = .ok sel →
      (∀ c ∈ sel, c.user_id = user.id) ∧
      List.Sorted (fun a b => idLe a b = true) sel ∧
      sel.length ≤ limit?.getD 10 ∧
      (db.filter (fun c => c.user_id == user.id) = [] → sel = []) := by
  have hpz : ¬ page?.getD 1 = 0 := by
    cases page? with
    | none => simp
    | some p =>
        have h1 := hpage p rfl
        simp only [Option.getD_some]
        omega
  have hoff64 : (page?.getD 1 - 1) * limit?.getD 10 < 18446744073709551616 :=
    by omega
  have e1 : usizeAsI32 (limit?.getD 10) = (limit?.getD 10 : Int) :=
    usizeAsI32_of_lt _ hlim
  have e2 : usizeAsI32 ((page?.getD 1 - 1) * limit?.getD 10) =
      (((page?.getD 1 - 1) * limit?.getD 10 : Nat) : Int) :=
    usizeAsI32_of_lt _ hoff
  have hn1 : ¬ ((limit?.getD 10 : Nat) : Int) < 0 :=
    Int.not_lt.mpr (Int.natCast_nonneg _)
  have hn2 : ¬ (((page?.getD 1 - 1) * limit?.getD 10 : Nat) : Int) < 0 :=
    Int.not_lt.mpr (Int.natCast_nonneg _)
  have heq : caseListSelected db user page? limit? =
      .ok (((sortById (db.filter (fun c => c.user_id == user.id))).drop
        ((page?.getD 1 - 1) * limit?.getD 10)).take (limit?.getD 10)) := by
    unfold caseListSelected listOffset
    simp [hpz, hoff64, e1, e2, hn1, hn2]
    rw [← Nat.cast_mul, if_neg hn2, Int.toNat_natCast]
  refine ⟨heq, ?_⟩
  intro sel hsel
  rw [heq] at hsel
  injection hsel with hsel
  subst hsel
  have hsub : (((sortById (db.filter (fun c => c.user_id == user.id))).drop
      ((page?.getD 1 - 1) * limit?.getD 10)).take (limit?.getD 10)).Sublist
      (sortById (db.filter (fun c => c.user_id == user.id))) :=
    (List.take_sublist _ _).trans (List.drop_sublist _ _)
  refine ⟨?_, ?_, ?_, ?_⟩
  · intro c hc
    have h1 : c ∈ sortById (db.filter (fun x => x.user_id == user.id)) :=
      hsub.mem hc
    simp only [sortById] at h1
    have h2 : c ∈ db.filter (fun x => x.user_id == user.id) :=
      (List.perm_insertionSort (fun a b => idLe a b = true) _).mem_iff.mp h1
    have h3 := (List.mem_filter.mp h2).2
    simpa using h3
  · have hs : List.Sorted (fun a b => idLe a b = true)
        (sortById (db.filter (fun x => x.user_id == user.id))) := by
      haveI : IsTotal CaseModel (fun a b => idLe a b = true) :=
        ⟨fun a b => by
          have ht := charListLe_total a.id.data b.id.data
          rcases Bool.or_eq_true_iff.mp ht with h | h
          · exact Or.inl h
          · exact Or.inr h⟩
      haveI : IsTrans CaseModel (fun a b => idLe a b = true) :=
        ⟨fun a b c h1 h2 => charListLe_trans _ _ _ h1 h2⟩
      exact List.sorted_insertionSort _ _
    exact List.Pairwise.sublist hsub hs
  · rw [List.length_take]
    exact min_le_left _ _
  · intro h
    rw [h]
    simp [sortById]

/-- C8 witness: with seven stored cases for `u1` (listed unsorted) and one
for another user, `page = 2, limit = 5` returns exactly the 6th and 7th
rows in ascending id order, both owned by `u1`. -/
theorem C8_witness :
    caseListSelected
        [sampleCase "c3" "u1" "GET", sampleCase "c1" "u1" "GET",
          sampleCase "c7" "u1" "GET", sampleCase "c2" "u1" "GET",
          sampleCase "c6" "u1" "GET", sampleCase "d1" "u2" "GET",
          sampleCase "c4" "u1" "GET", sampleCase "c5" "u1" "GET"]
        (sampleUser "u1" "e") (some 2) (some 5) =
      .ok [sampleCase "c6" "u1" "GET", sampleCase "c7" "u1" "GET"] ∧
    ((∀ c ∈ [sampleCase "c6" "u1" "GET", sampleCase "c7" "u1" "GET"],
        c.user_id = "u1") ∧
      List.Sorted (fun a b => idLe a b = true)
        [sampleCase "c6" "u1" "GET", sampleCase "c7" "u1" "GET"] ∧
      ([sampleCase "c6" "u1" "GET",
        sampleCase "c7" "u1" "GET"] : List CaseModel).length ≤ 5 ∧
      (List.filter (fun c => c.user_id == "u1")
          [sampleCase "c3" "u1" "GET", sampleCase "c1" "u1" "GET",
            sampleCase "c7" "u1" "GET", sampleCase "c2" "u1" "GET",
            sampleCase "c6" "u1" "GET", sampleCase "d1" "u2" "GET",
            sampleCase "c4" "u1" "GET", sampleCase "c5" "u1" "GET"] = [] →
        [sampleCase "c6" "u1" "GET", sampleCase "c7" "u1" "GET"] =
          ([] : List CaseModel))) := by
  have h := C8_list_pagination_in_range
    [sampleCase "c3" "u1" "GET", sampleCase "c1" "u1" "GET",
      sampleCase "c7" "u1" "GET", sampleCase "c2" "u1" "GET",
      sampleCase "c6" "u1" "GET", sampleCase "d1" "u2" "GET",
      sampleCase "c4" "u1" "GET", sampleCase "c5" "u1" "GET"]
    (sampleUser "u1" "e") (some 2) (some 5)
    (fun p hp => by cases hp; decide) (by decide) (by decide)
  exact ⟨h.1.trans (by decide),
    h.2 [sampleCase "c6" "u1" "GET", sampleCase "c7" "u1" "GET"]
      (h.1.trans (by decide))⟩
